import Mathlib

/-!
Shallow embedding of the client-side analysis orchestration layer of the
copypixivera repository: the media preprocessor (`optimizeImageForMobile`,
`fileToBase64`), the analysis-state controller (`handleScanStart`,
`processQueue`, `resetScanner`), the native bridge adapter
(`window.handleResult`), and the dashboard history display.

External effects (the remote analysis call, image decoding, JSON parsing,
FileReader) are modelled as oracle parameters carrying their outcome;
everything else is translated directly from the TypeScript source.
-/

/-- Enumerated screen identifier (src/unnamed/part_000, `ViewState`). -/
inductive ViewState where
  | HOME
  | SCANNING
  | RESULT
  | BATCH_PROCESSING
  | BATCH_RESULT
  | DASHBOARD
  | SETTINGS
deriving DecidableEq, Repr

/-- Enumerated job lifecycle (src/unnamed/part_000, `AnalysisStatus`). -/
inductive AnalysisStatus where
  | IDLE
  | UPLOADING
  | ANALYZING
  | COMPLETE
  | ERROR
deriving DecidableEq, Repr

/-- `ModelSignature` from src/unnamed/part_000. -/
structure ModelSignature where
  name : String
  confidence : Int
deriving DecidableEq, Repr

/-- `ForensicMetrics` from src/unnamed/part_000. -/
structure ForensicMetrics where
  biometricIntegrity : Int
  textureFidelity : Int
  lightingConsistency : Int
  physicalLogic : Int
deriving DecidableEq, Repr

/-- `HumanPerception` from src/unnamed/part_000. -/
structure HumanPerception where
  realnessScore : Int
  suspiciousnessScore : Int
  perceptualInconsistency : Int
  artifactLevel : Int
deriving DecidableEq, Repr

/-- `SuspiciousRegion` from src/unnamed/part_000 (`box_2d` is the
[ymin, xmin, ymax, xmax] quadruple on the 0-100 scale). -/
structure SuspiciousRegion where
  box_2d : List Int
  label : String
  confidence : Int
deriving DecidableEq, Repr

/-- One entry of `WatermarkDetection.signatures` (src/unnamed/part_000). -/
structure WatermarkSignature where
  provider : String
  type : String
  confidence : Int
deriving DecidableEq, Repr

/-- `WatermarkDetection` from src/unnamed/part_000. -/
structure WatermarkDetection where
  detected : Bool
  signatures : List WatermarkSignature
deriving DecidableEq, Repr

/-- `FrameAnomaly` from src/unnamed/part_000. -/
structure FrameAnomaly where
  timestamp : ℚ
  description : String
deriving DecidableEq, Repr

/-- `VideoAnalysis` from src/unnamed/part_000. -/
structure VideoAnalysis where
  temporalConsistencyScore : Int
  frameAnomalies : List FrameAnomaly
deriving DecidableEq, Repr

/-- `AnalysisResult` from src/unnamed/part_000: the full structured verdict. -/
structure AnalysisResult where
  isAI : Bool
  score : Int
  verdict : String
  reasoning : String
  technicalDetails : List String
  modelSignature : ModelSignature
  forensicMetrics : ForensicMetrics
  humanPerception : HumanPerception
  suspiciousRegions : List SuspiciousRegion
  watermark : WatermarkDetection
  videoAnalysis : Option VideoAnalysis := none
  timestamp : String
deriving DecidableEq, Repr

/-- `HistoryItem` from src/unnamed/part_000: an `AnalysisResult` spread
together with a generated id and a thumbnail reference. -/
structure HistoryItem where
  result : AnalysisResult
  id : String
  thumbnail : String
deriving DecidableEq, Repr

/-- `BatchAnalysisResult` from src/unnamed/part_000. -/
structure BatchAnalysisResult where
  fileName : String
  result : AnalysisResult
  thumbnail : String
deriving DecidableEq, Repr

/-- A browser `File` as the embedding sees it: its name, its MIME type
(`file.type`) and the base64 payload a plain `FileReader` would produce
from its raw bytes. -/
structure JSFile where
  name : String
  ftype : String
  rawBase64 : String
deriving DecidableEq, Repr

/-- `FileData` from src/unnamed/part_000. -/
structure FileData where
  file : Option JSFile
  previewUrl : String
  mimeType : String
  base64 : String
deriving DecidableEq, Repr

/-! ## Media preprocessor (src/services/geminiService.ts) -/

/-- Scaled dimensions, encode quality and output format produced by
`optimizeImageForMobile` (src/services/geminiService.ts lines 45-102).
The canvas re-encode itself is external; the arithmetic on dimensions and
the constants passed to `canvas.toDataURL` are embedded here. -/
structure OptimizedImage where
  width : ℚ
  height : ℚ
  quality : ℚ
  mimeType : String
deriving DecidableEq, Repr

/-- The dimension/quality computation of `optimizeImageForMobile`
(src/services/geminiService.ts lines 54-94), on the decoded image
dimensions. JS numbers are modelled as rationals. -/
def optimizeImageForMobile (w h : ℚ) : OptimizedImage :=
  -- MAX_WIDTH = MAX_HEIGHT = 1024 in the source, inlined here.
  if w > h then
    if w > 1024 then
      { width := 1024, height := h * (1024 / w),
        quality := 85 / 100, mimeType := "image/jpeg" }
    else
      { width := w, height := h, quality := 85 / 100, mimeType := "image/jpeg" }
  else
    if h > 1024 then
      { width := w * (1024 / h), height := 1024,
        quality := 85 / 100, mimeType := "image/jpeg" }
    else
      { width := w, height := h, quality := 85 / 100, mimeType := "image/jpeg" }

/-- Model of `m.startsWith("image/")` on a MIME string (kernel-friendly
character-list form of the prefix test). -/
def startsWithImage (m : String) : Bool :=
  "image/".data.isPrefixOf m.data

/-- Outcome of the asynchronous decode + canvas re-encode inside
`optimizeImageForMobile`: either it resolves with an optimized JPEG base64
payload, or it rejects (decode error, missing canvas context, ...). -/
inductive OptOutcome where
  | ok : String → OptOutcome
  | fail : OptOutcome
deriving DecidableEq, Repr

/-- `fileToBase64` (src/services/geminiService.ts lines 240-273): image
files go through the optimizer and fall back to the plain reader payload
when optimization rejects; non-image files are read as-is. -/
def fileToBase64 (f : JSFile) (opt : OptOutcome) : String :=
  if startsWithImage f.ftype then
    match opt with
    | OptOutcome.ok s => s
    | OptOutcome.fail => f.rawBase64
  else
    f.rawBase64

/-- The MIME type the controller sends with the payload:
`file.type.startsWith('image/') ? 'image/jpeg' : file.type`
(src/App.tsx lines 158 and 222). -/
def effectiveMimeType (f : JSFile) : String :=
  if startsWithImage f.ftype then "image/jpeg" else f.ftype

/-! ## Native bridge adapter (src/App.tsx, `window.handleResult`) -/

/-- Model of JS `String.prototype.toLowerCase` (ASCII case folding, which
is all the keyword heuristic needs). -/
def strToLower (s : String) : String :=
  String.mk (s.data.map Char.toLower)

/-- Model of JS `String.prototype.includes`: some suffix of the haystack
starts with the needle. -/
def strIncludes (hay needle : String) : Bool :=
  hay.data.tails.any fun t => needle.data.isPrefixOf t

/-- The loosely-typed payload `parsedData` inside `window.handleResult`
(src/App.tsx lines 79-112): every field the mapper reads, each possibly
absent. A `none` models a missing (undefined) JS property. -/
structure RawPayload where
  isAI : Option Bool := none
  score : Option Int := none
  verdict : Option String := none
  reasoning : Option String := none
  technicalDetails : Option (List String) := none
  modelSignature : Option ModelSignature := none
  forensicMetrics : Option ForensicMetrics := none
  humanPerception : Option HumanPerception := none
  suspiciousRegions : Option (List SuspiciousRegion) := none
  watermark : Option WatermarkDetection := none
deriving DecidableEq, Repr

/-- JS `x || d` on a possibly-absent string field: the empty string is
false-y, so it also falls through to the default. -/
def jsOrStr (o : Option String) (d : String) : String :=
  match o with
  | some s => if s = "" then d else s
  | none => d

/-- The keyword heuristic applied to a string payload that failed
`JSON.parse` (src/App.tsx lines 83-90). -/
def heuristicPayload (s : String) : RawPayload :=
  let isAI := strIncludes (strToLower s) "ai" || strIncludes (strToLower s) "synthetic"
  { isAI := some isAI,
    score := some (if isAI then 95 else 5),
    verdict := some (if isAI then "SYNTHETIC DETECTED" else "AUTHENTIC MEDIA") }

/-- Input delivered to `window.handleResult`: a string that parses as JSON
(with the parse result), a string that `JSON.parse` throws on, or an
already-structured object. Parsing itself is external JS, so its outcome
is part of the input. -/
inductive BridgeInput where
  | strParsed : String → RawPayload → BridgeInput
  | strUnparsed : String → BridgeInput
  | obj : RawPayload → BridgeInput
deriving DecidableEq, Repr

/-- The `parsedData` value after the string/object dispatch in
`window.handleResult` (src/App.tsx lines 79-93). -/
def payloadOf : BridgeInput → RawPayload
  | BridgeInput.strParsed _ p => p
  | BridgeInput.strUnparsed s => heuristicPayload s
  | BridgeInput.obj p => p

/-- The `mappedResult` normalization (src/App.tsx lines 96-112): fill every
missing field with its default; `ts` models `new Date().toISOString()`. -/
def mapResult (p : RawPayload) (ts : String) : AnalysisResult :=
  { isAI := p.isAI.getD false,
    score := match p.score with
      | some n => n
      | none => if p.isAI.getD false then 98 else 2,
    verdict := jsOrStr p.verdict (if p.isAI.getD false then "SYNTHETIC DETECTED" else "AUTHENTIC"),
    reasoning := jsOrStr p.reasoning "Analysis provided by iOS Neural Engine Bridge.",
    technicalDetails := p.technicalDetails.getD
      ["External verification complete", "Bridge data integrity: OK"],
    modelSignature := p.modelSignature.getD { name := "External Model", confidence := 0 },
    forensicMetrics := p.forensicMetrics.getD
      { biometricIntegrity := 50, textureFidelity := 50,
        lightingConsistency := 50, physicalLogic := 50 },
    humanPerception := p.humanPerception.getD
      { realnessScore := 50, suspiciousnessScore := 50,
        perceptualInconsistency := 0, artifactLevel := 0 },
    suspiciousRegions := p.suspiciousRegions.getD [],
    watermark := p.watermark.getD { detected := false, signatures := [] },
    videoAnalysis := none,
    timestamp := ts }

/-! ## Application controller state (src/App.tsx) -/

/-- The React state slots of the `App` component (src/App.tsx lines 23-36)
that the orchestration logic reads and writes. -/
structure AppState where
  view : ViewState
  status : AnalysisStatus
  currentFile : Option FileData
  currentResult : Option AnalysisResult
  batchQueue : List JSFile
  batchResults : List BatchAnalysisResult
  batchProgress : Nat
  history : List HistoryItem
deriving DecidableEq, Repr

/-- Building the `HistoryItem` spread `{...result, id, thumbnail}`
(src/App.tsx lines 128-132, 170-174, 234-238). -/
def mkHistoryItem (r : AnalysisResult) (id thumbnail : String) : HistoryItem :=
  { result := r, id := id, thumbnail := thumbnail }

/-- The placeholder `FileData` synthesized when the bridge fires with no
file loaded (src/App.tsx lines 115-122). -/
def placeholderFileData : FileData :=
  { file := none, previewUrl := "", mimeType := "application/octet-stream", base64 := "" }

/-- The replacement `window.handleResult` handler installed by the bridge
effect (src/App.tsx lines 67-137), after the legacy-handler call: map the
payload, set the current result, mark complete, show the result view, and
prepend a `HistoryItem`. `uuid` models `crypto.randomUUID()` and `ts` the
fresh timestamp. -/
def handleResult (s : AppState) (input : BridgeInput) (uuid ts : String) : AppState :=
  let mappedResult := mapResult (payloadOf input) ts
  let s1 := match s.currentFile with
    | none => { s with currentFile := some placeholderFileData }
    | some _ => s
  { s1 with
    currentResult := some mappedResult,
    status := AnalysisStatus.COMPLETE,
    view := ViewState.RESULT,
    history := mkHistoryItem mappedResult uuid "" :: s1.history }

/-- Outcome of the awaited part of the single-file scan (src/App.tsx lines
217-241): `fail1` models `fileToBase64` rejecting, `fail2` models
`analyzeContent` throwing after a successful encode, `ok` a full success.
The carried strings are the encoded payload, the error message, and the
analysis result. -/
inductive SingleScanOutcome where
  | fail1 : String → SingleScanOutcome
  | fail2 : String → String → SingleScanOutcome
  | ok : String → AnalysisResult → SingleScanOutcome
deriving DecidableEq, Repr

/-- The alert text built in the catch block of `handleScanStart`
(src/App.tsx line 247). -/
def analysisAlert (msg : String) : String :=
  "Analysis Error: " ++ msg ++ ". Try a smaller image."

/-- The synchronous prefix of `handleScanStart` (src/App.tsx lines
196-257): before the first await, a single file switches to the scanning
view, two or more files initialize and enter batch mode, an empty
selection returns immediately. -/
def handleScanStartSync (s : AppState) (files : List JSFile) : AppState :=
  match files with
  | [] => s
  | [_] => { s with status := AnalysisStatus.ANALYZING, view := ViewState.SCANNING }
  | _ :: _ :: _ =>
    { s with
      batchQueue := files,
      batchResults := [],
      batchProgress := 0,
      view := ViewState.BATCH_PROCESSING,
      status := AnalysisStatus.ANALYZING }

/-- The awaited remainder of the single-file branch of `handleScanStart`
(src/App.tsx lines 217-249), starting from the scanning state. Returns the
new state and the list of alert messages shown. `previewUrl` models
`URL.createObjectURL(file)` and `uuid` models `crypto.randomUUID()`. -/
def singleScanRun (s : AppState) (f : JSFile) (outcome : SingleScanOutcome)
    (previewUrl uuid : String) : AppState × List String :=
  match outcome with
  | SingleScanOutcome.fail1 msg =>
    ({ s with status := AnalysisStatus.ERROR, view := ViewState.HOME },
     [analysisAlert msg])
  | SingleScanOutcome.fail2 base64 msg =>
    ({ s with
       currentFile := some
         { file := some f, previewUrl := previewUrl,
           mimeType := effectiveMimeType f, base64 := base64 },
       status := AnalysisStatus.ERROR, view := ViewState.HOME },
     [analysisAlert msg])
  | SingleScanOutcome.ok base64 result =>
    ({ s with
       currentFile := some
         { file := some f, previewUrl := previewUrl,
           mimeType := effectiveMimeType f, base64 := base64 },
       currentResult := some result,
       history := mkHistoryItem result uuid previewUrl :: s.history,
       status := AnalysisStatus.COMPLETE, view := ViewState.RESULT },
     [])

/-- `handleScanStart` end to end (src/App.tsx lines 196-257): dispatch on
the number of selected files; the single-file branch runs the synchronous
prefix and then the awaited remainder. -/
def handleScanStart (s : AppState) (files : List JSFile)
    (outcome : SingleScanOutcome) (previewUrl uuid : String) :
    AppState × List String :=
  match files with
  | [] => (s, [])
  | [f] => singleScanRun (handleScanStartSync s files) f outcome previewUrl uuid
  | _ :: _ :: _ => (handleScanStartSync s files, [])

/-- Per-file outcome of the preprocessing + analysis attempt inside the
batch loop (src/App.tsx lines 152-178): either some await in the try block
throws, or analysis resolves with a result. -/
inductive BatchOutcome where
  | fail : BatchOutcome
  | ok : AnalysisResult → BatchOutcome
deriving DecidableEq, Repr

/-- One iteration of the `processQueue` effect body (src/App.tsx lines
147-188) on a state whose queue is non-empty: attempt the head file; on
success append a `BatchAnalysisResult` and prepend a `HistoryItem`; on
failure only log; in both cases drop the file from the queue and bump the
progress counter; when the queue empties, show the batch result view. -/
def processQueueStep (s : AppState) (outcome : BatchOutcome)
    (previewUrl uuid : String) : AppState :=
  match s.batchQueue with
  | [] => s
  | f :: remaining =>
    let s1 := match outcome with
      | BatchOutcome.fail => s
      | BatchOutcome.ok result =>
        { s with
          batchResults := s.batchResults ++
            [({ fileName := f.name, result := result, thumbnail := previewUrl } : BatchAnalysisResult)],
          history := mkHistoryItem result uuid previewUrl :: s.history }
    let s2 := { s1 with batchQueue := remaining, batchProgress := s1.batchProgress + 1 }
    if remaining.isEmpty then
      { s2 with view := ViewState.BATCH_RESULT, status := AnalysisStatus.COMPLETE }
    else s2

/-- The re-triggering batch effect (src/App.tsx lines 146-193) run to
quiescence: while the view is `BATCH_PROCESSING` and the queue is
non-empty, consume one per-file outcome (with its preview URL and uuid)
per iteration. Returns the final state together with the list of files on
which a preprocessing+analysis attempt was made, in order. -/
def processQueueRun (s : AppState) :
    List (BatchOutcome × String × String) → AppState × List JSFile
  | [] => (s, [])
  | (o, p, u) :: rest =>
    if s.view = ViewState.BATCH_PROCESSING ∧ ¬ s.batchQueue.isEmpty then
      match s.batchQueue with
      | [] => (s, [])
      | f :: _ =>
        let r := processQueueRun (processQueueStep s o p u) rest
        (r.1, f :: r.2)
    else (s, [])

/-- `resetScanner` (src/App.tsx lines 259-266). -/
def resetScanner (s : AppState) : AppState :=
  { s with
    currentFile := none,
    currentResult := none,
    batchQueue := [],
    batchResults := [],
    status := AnalysisStatus.IDLE,
    view := ViewState.HOME }

/-- The order in which the dashboard lists history entries:
`history.slice().reverse()` (src/components/Dashboard.tsx line 65). -/
def displayedHistory (h : List HistoryItem) : List HistoryItem :=
  h.reverse

/-- The operations that mutate controller state, for stating global
invariants: a scan start (with its oracle inputs), one batch-loop
iteration, one bridge injection, and the manual reset. -/
inductive AppOp where
  | scanStart : List JSFile → SingleScanOutcome → String → String → AppOp
  | batchStep : BatchOutcome → String → String → AppOp
  | bridge : BridgeInput → String → String → AppOp
  | reset : AppOp

/-- Apply one operation to the controller state. -/
def applyOp (s : AppState) : AppOp → AppState
  | AppOp.scanStart files o p u => (handleScanStart s files o p u).1
  | AppOp.batchStep o p u => processQueueStep s o p u
  | AppOp.bridge input u ts => handleResult s input u ts
  | AppOp.reset => resetScanner s
/-- C3: for every successfully preprocessed image, if width or height
exceeds 1024 the output's larger dimension equals exactly 1024 and the
aspect ratio is preserved exactly; if both dimensions are at most 1024 the
dimensions are unchanged; the re-encode quality factor is 0.85. -/
theorem optimizeImage_dims_spec (w h : ℚ) :
    ((1024 < w ∨ 1024 < h) →
      max (optimizeImageForMobile w h).width (optimizeImageForMobile w h).height = 1024 ∧
      (optimizeImageForMobile w h).width * h = (optimizeImageForMobile w h).height * w) ∧
    (w ≤ 1024 → h ≤ 1024 →
      (optimizeImageForMobile w h).width = w ∧ (optimizeImageForMobile w h).height = h) ∧
    (optimizeImageForMobile w h).quality = 85 / 100 := by
  unfold optimizeImageForMobile
  split_ifs with h1 h2 h3
  · have hw : (0 : ℚ) < w := lt_trans (by norm_num) h2
    refine ⟨fun _ => ⟨?_, ?_⟩, fun hwle _ => absurd h2 (not_lt.mpr hwle), rfl⟩
    · simp only
      rw [max_eq_left]
      rw [← mul_div_assoc, div_le_iff₀ hw]
      nlinarith [h1.le]
    · simp only
      field_simp
      ring
  · refine ⟨fun hc => ?_, fun _ _ => ⟨rfl, rfl⟩, rfl⟩
    rcases hc with hc | hc
    · exact absurd hc (not_lt.mpr (not_lt.mp h2))
    · exact absurd (lt_trans hc h1) (not_lt.mpr (not_lt.mp h2))
  · have hh : (0 : ℚ) < h := lt_trans (by norm_num) h3
    refine ⟨fun _ => ⟨?_, ?_⟩, fun _ hhle => absurd h3 (not_lt.mpr hhle), rfl⟩
    · simp only
      rw [max_eq_right]
      rw [← mul_div_assoc, div_le_iff₀ hh]
      nlinarith [not_lt.mp h1]
    · simp only
      field_simp
      ring
  · refine ⟨fun hc => ?_, fun _ _ => ⟨rfl, rfl⟩, rfl⟩
    rcases hc with hc | hc
    · exact absurd (lt_of_lt_of_le hc (not_lt.mp h1)) (not_lt.mpr (not_lt.mp h3))
    · exact absurd hc (not_lt.mpr (not_lt.mp h3))

/-- Witness for `optimizeImage_dims_spec` at a concrete 2048 x 1536 input
and at a concrete 800 x 600 input. -/
theorem optimizeImage_dims_spec_witness :
    (max (optimizeImageForMobile 2048 1536).width (optimizeImageForMobile 2048 1536).height = 1024 ∧
      (optimizeImageForMobile 2048 1536).width * 1536 = (optimizeImageForMobile 2048 1536).height * 2048) ∧
    ((optimizeImageForMobile 800 600).width = 800 ∧ (optimizeImageForMobile 800 600).height = 600) := by
  refine ⟨(optimizeImage_dims_spec 2048 1536).1 (Or.inl (by norm_num)), ?_⟩
  exact (optimizeImage_dims_spec 800 600).2.1 (by norm_num) (by norm_num)

/-- A concrete PNG-typed input file used to exercise the preprocessing
fallback. -/
def samplePngFile : JSFile :=
  { name := "photo.png", ftype := "image/png", rawBase64 := "RAWPNGPAYLOAD" }

/-- C2 counterexample: for a PNG input whose optimization fails, the raw
bytes are indeed transmitted unmodified, but the MIME type sent with them
is the forced re-encode format, not the input file's original MIME type —
refuting the claim as stated. -/
theorem preprocess_fallback_mime_cex :
    fileToBase64 samplePngFile OptOutcome.fail = samplePngFile.rawBase64 ∧
    effectiveMimeType samplePngFile ≠ samplePngFile.ftype := by
  constructor
  · rfl
  · decide

/-- C2 amended: for every image input whose decode or re-encode fails, the
scan still proceeds with the raw input bytes transmitted unmodified, but
the MIME type sent with them is the forced re-encode format `image/jpeg`
(the original MIME type is used only for non-image inputs, which are
always sent raw). -/
theorem preprocess_fallback_spec (f : JSFile) :
    (startsWithImage f.ftype = true →
      fileToBase64 f OptOutcome.fail = f.rawBase64 ∧
      effectiveMimeType f = "image/jpeg") ∧
    (startsWithImage f.ftype = false →
      (∀ opt, fileToBase64 f opt = f.rawBase64) ∧
      effectiveMimeType f = f.ftype) := by
  constructor
  · intro himg
    unfold fileToBase64 effectiveMimeType
    rw [himg]
    exact ⟨rfl, rfl⟩
  · intro himg
    unfold fileToBase64 effectiveMimeType
    rw [himg]
    exact ⟨fun _ => rfl, rfl⟩

/-- Witness for `preprocess_fallback_spec` at the concrete PNG file. -/
theorem preprocess_fallback_spec_witness :
    startsWithImage samplePngFile.ftype = true ∧
    (fileToBase64 samplePngFile OptOutcome.fail = samplePngFile.rawBase64 ∧
      effectiveMimeType samplePngFile = "image/jpeg") :=
  ⟨by decide, (preprocess_fallback_spec samplePngFile).1 (by decide)⟩

/-- C5: for every bridge injection whose input is a string that fails
strict JSON parsing, the produced result is the mapped heuristic payload:
its boolean classification is exactly the case-insensitive "ai" /
"synthetic" substring test, with score 95 when positive and 5 when
negative. -/
theorem bridge_heuristic_spec (st : AppState) (s : String) (uuid ts : String) :
    (handleResult st (BridgeInput.strUnparsed s) uuid ts).currentResult =
      some (mapResult (heuristicPayload s) ts) ∧
    (mapResult (heuristicPayload s) ts).isAI =
      (strIncludes (strToLower s) "ai" || strIncludes (strToLower s) "synthetic") ∧
    (mapResult (heuristicPayload s) ts).score =
      (if strIncludes (strToLower s) "ai" || strIncludes (strToLower s) "synthetic"
       then 95 else 5) := by
  refine ⟨?_, rfl, rfl⟩
  unfold handleResult
  cases st.currentFile <;> rfl

/-- C7: selecting exactly one file enters the single-scan path (scanning
view, analyzing status); selecting two or more enters the batch path
(batch-processing view, analyzing status, queue set to the full list,
results and progress reset); selecting zero files changes nothing. -/
theorem file_selection_spec (s : AppState) (o : SingleScanOutcome) (p u : String) :
    handleScanStart s [] o p u = (s, []) ∧
    (∀ f, handleScanStartSync s [f] =
      { s with status := AnalysisStatus.ANALYZING, view := ViewState.SCANNING }) ∧
    (∀ f1 f2 rest, handleScanStart s (f1 :: f2 :: rest) o p u =
      ({ s with batchQueue := f1 :: f2 :: rest, batchResults := [], batchProgress := 0,
                view := ViewState.BATCH_PROCESSING, status := AnalysisStatus.ANALYZING }, [])) :=
  ⟨rfl, fun _ => rfl, fun _ _ _ => rfl⟩

/-- C8: a single scan whose preprocessing (`fail1`) or analysis (`fail2`)
call fails surfaces exactly one alert, returns the view to home, sets the
status to error, does not set a current result, and leaves the history
ledger unchanged. -/
theorem single_scan_failure_spec (s : AppState) (f : JSFile) (b64 msg p u : String) :
    ((handleScanStart s [f] (SingleScanOutcome.fail1 msg) p u).2 = [analysisAlert msg] ∧
      (handleScanStart s [f] (SingleScanOutcome.fail1 msg) p u).1.view = ViewState.HOME ∧
      (handleScanStart s [f] (SingleScanOutcome.fail1 msg) p u).1.status = AnalysisStatus.ERROR ∧
      (handleScanStart s [f] (SingleScanOutcome.fail1 msg) p u).1.currentResult = s.currentResult ∧
      (handleScanStart s [f] (SingleScanOutcome.fail1 msg) p u).1.history = s.history) ∧
    ((handleScanStart s [f] (SingleScanOutcome.fail2 b64 msg) p u).2 = [analysisAlert msg] ∧
      (handleScanStart s [f] (SingleScanOutcome.fail2 b64 msg) p u).1.view = ViewState.HOME ∧
      (handleScanStart s [f] (SingleScanOutcome.fail2 b64 msg) p u).1.status = AnalysisStatus.ERROR ∧
      (handleScanStart s [f] (SingleScanOutcome.fail2 b64 msg) p u).1.currentResult = s.currentResult ∧
      (handleScanStart s [f] (SingleScanOutcome.fail2 b64 msg) p u).1.history = s.history) :=
  ⟨⟨rfl, rfl, rfl, rfl, rfl⟩, ⟨rfl, rfl, rfl, rfl, rfl⟩⟩

/-- A concrete ledger entry standing for an earlier completed analysis. -/
def sampleOldItem : HistoryItem :=
  mkHistoryItem (mapResult {} "T0") "id-old" ""

/-- A concrete controller state holding one earlier ledger entry. -/
def sampleStateWithHistory : AppState :=
  { view := ViewState.HOME, status := AnalysisStatus.IDLE, currentFile := none,
    currentResult := none, batchQueue := [], batchResults := [], batchProgress := 0,
    history := [sampleOldItem] }

/-- C4 counterexample: a bridge injection on a state with one existing
ledger entry does not append the new item after the existing one — the
stored ledger is the new item first, so the stored order is not
oldest-first as claimed. -/
theorem history_order_cex :
    (handleResult sampleStateWithHistory (BridgeInput.obj {}) "id-new" "T1").history =
      mkHistoryItem (mapResult {} "T1") "id-new" "" :: [sampleOldItem] ∧
    (handleResult sampleStateWithHistory (BridgeInput.obj {}) "id-new" "T1").history ≠
      sampleStateWithHistory.history ++ [mkHistoryItem (mapResult {} "T1") "id-new" ""] := by
  constructor
  · rfl
  · decide

/-- C4 amended: the ledger's stored order is newest-first — each newly
completed analysis (single scan, batch item, or bridge injection) is
prepended before all existing entries — and the display layer reverses the
stored order, so the dashboard lists the oldest entry first and a newly
prepended entry last. -/
theorem history_order_spec (s : AppState) (f : JSFile) (q : List JSFile)
    (r : AnalysisResult) (b64 p u ts : String) (inp : BridgeInput)
    (item : HistoryItem) (hst : List HistoryItem) :
    ((handleScanStart s [f] (SingleScanOutcome.ok b64 r) p u).1.history =
      mkHistoryItem r u p :: s.history) ∧
    ((processQueueStep { s with batchQueue := f :: q } (BatchOutcome.ok r) p u).history =
      mkHistoryItem r u p :: s.history) ∧
    ((handleResult s inp u ts).history =
      mkHistoryItem (mapResult (payloadOf inp) ts) u "" :: s.history) ∧
    (displayedHistory (item :: hst) = displayedHistory hst ++ [item]) := by
  refine ⟨rfl, ?_, ?_, ?_⟩
  · cases q <;> rfl
  · unfold handleResult
    cases s.currentFile <;> rfl
  · simp [displayedHistory]

/-- C6 counterexample: a bridge payload omitting every block is normalized
with perceptual-inconsistency and artifact-level sub-metrics set to 0, not
50, and with a two-entry placeholder technical-details list, not the empty
list — refuting the claim that every unset sub-metric becomes 50 and every
unset list becomes empty. -/
theorem bridge_defaults_cex :
    (mapResult {} "T").humanPerception =
      { realnessScore := 50, suspiciousnessScore := 50,
        perceptualInconsistency := 0, artifactLevel := 0 } ∧
    (mapResult {} "T").humanPerception.artifactLevel ≠ 50 ∧
    (mapResult {} "T").technicalDetails =
      ["External verification complete", "Bridge data integrity: OK"] ∧
    (mapResult {} "T").technicalDetails ≠ [] :=
  ⟨rfl, by decide, rfl, by decide⟩

/-- C6 amended: for every bridge payload, each omitted block is filled
with its fixed default: the four forensic sub-metrics all default to 50;
of the human-perception sub-metrics, realness and suspiciousness default
to 50 while perceptual inconsistency and artifact level default to 0;
unset suspicious regions and watermark signatures default to empty lists,
while unset technical details default to a fixed two-entry placeholder
list; and unset verdict text is derived from the boolean classification. -/
theorem bridge_defaults_spec (p : RawPayload) (ts : String) :
    (p.forensicMetrics = none → (mapResult p ts).forensicMetrics =
      { biometricIntegrity := 50, textureFidelity := 50,
        lightingConsistency := 50, physicalLogic := 50 }) ∧
    (p.humanPerception = none → (mapResult p ts).humanPerception =
      { realnessScore := 50, suspiciousnessScore := 50,
        perceptualInconsistency := 0, artifactLevel := 0 }) ∧
    (p.suspiciousRegions = none → (mapResult p ts).suspiciousRegions = []) ∧
    (p.watermark = none → (mapResult p ts).watermark =
      { detected := false, signatures := [] }) ∧
    (p.technicalDetails = none → (mapResult p ts).technicalDetails =
      ["External verification complete", "Bridge data integrity: OK"]) ∧
    (p.verdict = none → (mapResult p ts).verdict =
      (if p.isAI.getD false then "SYNTHETIC DETECTED" else "AUTHENTIC")) := by
  refine ⟨?_, ?_, ?_, ?_, ?_, ?_⟩ <;> intro h <;> simp [mapResult, jsOrStr, h]

/-- Witness for `bridge_defaults_spec` at the all-absent payload. -/
theorem bridge_defaults_spec_witness :
    ({} : RawPayload).humanPerception = none ∧
    (mapResult {} "T").forensicMetrics =
      { biometricIntegrity := 50, textureFidelity := 50,
        lightingConsistency := 50, physicalLogic := 50 } ∧
    (mapResult {} "T").humanPerception =
      { realnessScore := 50, suspiciousnessScore := 50,
        perceptualInconsistency := 0, artifactLevel := 0 } ∧
    (mapResult {} "T").suspiciousRegions = [] ∧
    (mapResult {} "T").verdict = "AUTHENTIC" := by
  have h := bridge_defaults_spec ({} : RawPayload) "T"
  exact ⟨rfl, h.1 rfl, h.2.1 rfl, h.2.2.1 rfl, h.2.2.2.2.2 rfl⟩

/-- C10: for a bridge object payload whose isAI field is absent or false,
the normalized result is classified not-AI; if such a payload also lacks a
numeric score, the score defaults to 2 and an unset verdict defaults to
AUTHENTIC; a payload with isAI true and no numeric score defaults to score
98 and verdict SYNTHETIC DETECTED. -/
theorem bridge_isAI_defaults_spec (p : RawPayload) (ts : String) :
    ((p.isAI = none ∨ p.isAI = some false) →
      (mapResult p ts).isAI = false ∧
      (p.score = none → (mapResult p ts).score = 2) ∧
      (p.score = none → p.verdict = none → (mapResult p ts).verdict = "AUTHENTIC")) ∧
    (p.isAI = some true → p.score = none →
      (mapResult p ts).score = 98 ∧
      (p.verdict = none → (mapResult p ts).verdict = "SYNTHETIC DETECTED")) := by
  constructor
  · intro hAI
    rcases hAI with h | h <;>
      exact ⟨by simp [mapResult, h],
             fun hs => by simp [mapResult, h, hs],
             fun hs hv => by simp [mapResult, jsOrStr, h, hs, hv]⟩
  · intro h hs
    exact ⟨by simp [mapResult, h, hs], fun hv => by simp [mapResult, jsOrStr, h, hv]⟩

/-- Witness for `bridge_isAI_defaults_spec` at the all-absent payload and
at a payload carrying only isAI true. -/
theorem bridge_isAI_defaults_spec_witness :
    ((mapResult ({} : RawPayload) "T").isAI = false ∧
      (mapResult ({} : RawPayload) "T").score = 2 ∧
      (mapResult ({} : RawPayload) "T").verdict = "AUTHENTIC") ∧
    ((mapResult ({ isAI := some true } : RawPayload) "T").score = 98 ∧
      (mapResult ({ isAI := some true } : RawPayload) "T").verdict = "SYNTHETIC DETECTED") := by
  have h1 := (bridge_isAI_defaults_spec ({} : RawPayload) "T").1 (Or.inl rfl)
  have h2 := (bridge_isAI_defaults_spec ({ isAI := some true } : RawPayload) "T").2 rfl rfl
  exact ⟨⟨h1.1, h1.2.1 rfl, h1.2.2 rfl rfl⟩, h2.1, h2.2 rfl⟩

/-- C9: across every controller operation the ledger never shrinks; each
completed analysis — single-scan success, successful batch iteration, or
bridge injection — prepends exactly one entry; and the reset operation
clears the current file, current result, batch queue and batch results,
forces idle status and the home view, and leaves the ledger untouched. -/
theorem history_invariant_spec :
    (∀ (s : AppState) (op : AppOp),
      s.history.length ≤ (applyOp s op).history.length) ∧
    (∀ s : AppState, applyOp s AppOp.reset =
      { s with currentFile := none, currentResult := none, batchQueue := [],
               batchResults := [], status := AnalysisStatus.IDLE,
               view := ViewState.HOME }) ∧
    (∀ (s : AppState) (f : JSFile) (q : List JSFile) (r : AnalysisResult)
        (b64 p u ts : String) (inp : BridgeInput),
      (handleScanStart s [f] (SingleScanOutcome.ok b64 r) p u).1.history.length =
        s.history.length + 1 ∧
      (processQueueStep { s with batchQueue := f :: q } (BatchOutcome.ok r) p u).history.length =
        s.history.length + 1 ∧
      (handleResult s inp u ts).history.length = s.history.length + 1) := by
  refine ⟨?_, fun _ => rfl, ?_⟩
  · intro s op
    cases op with
    | scanStart files o p u =>
      match files with
      | [] => exact le_refl _
      | [f] =>
        cases o with
        | fail1 msg => exact le_refl _
        | fail2 b64 msg => exact le_refl _
        | ok b64 r => exact Nat.le_succ _
      | f1 :: f2 :: rest => exact le_refl _
    | batchStep o p u =>
      show s.history.length ≤ (processQueueStep s o p u).history.length
      unfold processQueueStep
      cases hq : s.batchQueue with
      | nil => exact le_refl _
      | cons f remaining =>
        cases o with
        | fail => cases remaining <;> simp
        | ok r => cases remaining <;> simp
    | bridge inp u ts =>
      show s.history.length ≤ (handleResult s inp u ts).history.length
      unfold handleResult
      cases s.currentFile <;> simp
    | reset => exact le_refl _
  · intro s f q r b64 p u ts inp
    refine ⟨rfl, ?_, ?_⟩
    · cases q <;> rfl
    · unfold handleResult
      cases s.currentFile <;> rfl

/-- Whether a per-file batch outcome is a success. -/
def isOkOut : BatchOutcome × String × String → Bool
  | (BatchOutcome.ok _, _, _) => true
  | (BatchOutcome.fail, _, _) => false

/-- Whether a per-file batch outcome is a failure. -/
def isFailOut (x : BatchOutcome × String × String) : Bool :=
  ! isOkOut x

theorem countP_ok_add_countP_fail (outs : List (BatchOutcome × String × String)) :
    outs.countP isOkOut + outs.countP isFailOut = outs.length := by
  induction outs with
  | nil => rfl
  | cons x rest ih =>
    rcases x with ⟨o, p, u⟩
    cases o <;> simp [List.countP_cons, isOkOut, isFailOut] <;> omega

theorem processQueueStep_cons (s : AppState) (f : JSFile) (remaining : List JSFile)
    (o : BatchOutcome) (p u : String) (hq : s.batchQueue = f :: remaining) :
    (processQueueStep s o p u).batchQueue = remaining ∧
    (processQueueStep s o p u).batchProgress = s.batchProgress + 1 ∧
    (processQueueStep s o p u).batchResults.length =
      s.batchResults.length + (if isOkOut (o, p, u) then 1 else 0) ∧
    (processQueueStep s o p u).history.length =
      s.history.length + (if isOkOut (o, p, u) then 1 else 0) ∧
    (remaining ≠ [] → (processQueueStep s o p u).view = s.view) := by
  unfold processQueueStep
  rw [hq]
  cases o <;> cases remaining <;> simp [isOkOut]

theorem processQueueRun_spec (outs : List (BatchOutcome × String × String)) :
    ∀ s : AppState, s.view = ViewState.BATCH_PROCESSING →
    outs.length = s.batchQueue.length →
    (processQueueRun s outs).2 = s.batchQueue ∧
    (processQueueRun s outs).1.batchProgress = s.batchProgress + outs.length ∧
    (processQueueRun s outs).1.batchResults.length =
      s.batchResults.length + outs.countP isOkOut ∧
    (processQueueRun s outs).1.history.length =
      s.history.length + outs.countP isOkOut ∧
    (processQueueRun s outs).1.batchQueue = [] := by
  induction outs with
  | nil =>
    intro s hv hlen
    have hq : s.batchQueue = [] := List.eq_nil_of_length_eq_zero hlen.symm
    simp [processQueueRun, hq]
  | cons x rest ih =>
    rcases x with ⟨o, p, u⟩
    intro s hv hlen
    cases hq : s.batchQueue with
    | nil => rw [hq] at hlen; simp at hlen
    | cons f remaining =>
      have hguard : s.view = ViewState.BATCH_PROCESSING ∧ ¬ s.batchQueue.isEmpty := by
        rw [hq]; exact ⟨hv, by simp⟩
      have hstep := processQueueStep_cons s f remaining o p u hq
      have hrun : processQueueRun s ((o, p, u) :: rest) =
          ((processQueueRun (processQueueStep s o p u) rest).1,
            f :: (processQueueRun (processQueueStep s o p u) rest).2) := by
        rw [processQueueRun, if_pos hguard, hq]
      rw [hq] at hlen
      simp only [List.length_cons, Nat.succ_inj] at hlen
      cases hrem : remaining with
      | nil =>
        have hrest : rest = [] := by
          rw [hrem] at hlen; exact List.eq_nil_of_length_eq_zero hlen
        subst hrest
        have c1 : (processQueueRun s [(o, p, u)]).2 = f :: remaining := by
          rw [hrun]; dsimp only; simp only [processQueueRun]; rw [hrem]
        have c2 : (processQueueRun s [(o, p, u)]).1.batchProgress =
            s.batchProgress + 1 := by
          rw [hrun]; dsimp only; simp only [processQueueRun]; exact hstep.2.1
        have c3 : (processQueueRun s [(o, p, u)]).1.batchResults.length =
            s.batchResults.length + List.countP isOkOut [(o, p, u)] := by
          rw [hrun]; dsimp only; simp only [processQueueRun]
          rw [hstep.2.2.1]; simp only [List.countP_cons, List.countP_nil]
          cases o <;> simp [isOkOut]
        have c4 : (processQueueRun s [(o, p, u)]).1.history.length =
            s.history.length + List.countP isOkOut [(o, p, u)] := by
          rw [hrun]; dsimp only; simp only [processQueueRun]
          rw [hstep.2.2.2.1]; simp only [List.countP_cons, List.countP_nil]
          cases o <;> simp [isOkOut]
        have c5 : (processQueueRun s [(o, p, u)]).1.batchQueue = [] := by
          rw [hrun]; dsimp only; simp only [processQueueRun]
          rw [hstep.1, hrem]
        exact ⟨by rw [c1, hrem], by rw [c2]; simp, c3, c4, c5⟩
      | cons g rest2 =>
        have hv2 : (processQueueStep s o p u).view = ViewState.BATCH_PROCESSING := by
          rw [hstep.2.2.2.2 (by rw [hrem]; simp), hv]
        have hlen2 : rest.length = (processQueueStep s o p u).batchQueue.length := by
          rw [hstep.1, hlen]
        have hIH := ih (processQueueStep s o p u) hv2 hlen2
        have c1 : (processQueueRun s ((o, p, u) :: rest)).2 = f :: remaining := by
          rw [hrun]; dsimp only; rw [hIH.1, hstep.1]
        have c2 : (processQueueRun s ((o, p, u) :: rest)).1.batchProgress =
            s.batchProgress + ((o, p, u) :: rest).length := by
          rw [hrun]; dsimp only; rw [hIH.2.1, hstep.2.1]
          simp only [List.length_cons]; omega
        have c3 : (processQueueRun s ((o, p, u) :: rest)).1.batchResults.length =
            s.batchResults.length + List.countP isOkOut ((o, p, u) :: rest) := by
          rw [hrun]; dsimp only; rw [hIH.2.2.1, hstep.2.2.1]
          simp only [List.countP_cons]
          cases o <;> simp [isOkOut] <;> omega
        have c4 : (processQueueRun s ((o, p, u) :: rest)).1.history.length =
            s.history.length + List.countP isOkOut ((o, p, u) :: rest) := by
          rw [hrun]; dsimp only; rw [hIH.2.2.2.1, hstep.2.2.2.1]
          simp only [List.countP_cons]
          cases o <;> simp [isOkOut] <;> omega
        have c5 : (processQueueRun s ((o, p, u) :: rest)).1.batchQueue = [] := by
          rw [hrun]; dsimp only; exact hIH.2.2.2.2
        exact ⟨by rw [c1, hrem], c2, c3, c4, c5⟩

/-- C1: starting a batch of N files and running the queue to quiescence
with one per-file outcome each, the runner attempts the preprocessing +
analysis pair exactly once per file, in input order; the progress counter
reaches exactly N; with k failing files exactly N - k batch results and
exactly N - k new ledger entries are produced; and the queue is fully
drained, failed files included. -/
theorem batch_runner_spec (s : AppState) (f1 f2 : JSFile) (rest : List JSFile)
    (o : SingleScanOutcome) (p u : String)
    (outs : List (BatchOutcome × String × String))
    (hlen : outs.length = (f1 :: f2 :: rest).length) :
    (processQueueRun (handleScanStart s (f1 :: f2 :: rest) o p u).1 outs).2 =
      f1 :: f2 :: rest ∧
    (processQueueRun (handleScanStart s (f1 :: f2 :: rest) o p u).1 outs).1.batchProgress =
      (f1 :: f2 :: rest).length ∧
    (processQueueRun (handleScanStart s (f1 :: f2 :: rest) o p u).1 outs).1.batchResults.length =
      (f1 :: f2 :: rest).length - outs.countP isFailOut ∧
    (processQueueRun (handleScanStart s (f1 :: f2 :: rest) o p u).1 outs).1.history.length =
      s.history.length + ((f1 :: f2 :: rest).length - outs.countP isFailOut) ∧
    (processQueueRun (handleScanStart s (f1 :: f2 :: rest) o p u).1 outs).1.batchQueue = [] := by
  have hcount := countP_ok_add_countP_fail outs
  have hq0 : (handleScanStart s (f1 :: f2 :: rest) o p u).1.batchQueue =
      f1 :: f2 :: rest := rfl
  have hp0 : (handleScanStart s (f1 :: f2 :: rest) o p u).1.batchProgress = 0 := rfl
  have hr0 : (handleScanStart s (f1 :: f2 :: rest) o p u).1.batchResults.length = 0 := rfl
  have hh0 : (handleScanStart s (f1 :: f2 :: rest) o p u).1.history = s.history := rfl
  have hv0 : (handleScanStart s (f1 :: f2 :: rest) o p u).1.view =
      ViewState.BATCH_PROCESSING := rfl
  have hspec := processQueueRun_spec outs (handleScanStart s (f1 :: f2 :: rest) o p u).1
    hv0 (by rw [hq0]; exact hlen)
  refine ⟨by rw [hspec.1, hq0], ?_, ?_, ?_, hspec.2.2.2.2⟩
  · rw [hspec.2.1, hp0]
    simp only [List.length_cons] at hlen ⊢
    omega
  · rw [hspec.2.2.1, hr0]
    simp only [List.length_cons] at hlen ⊢
    omega
  · rw [hspec.2.2.2.1, hh0]
    simp only [List.length_cons] at hlen ⊢
    omega

/-- Concrete batch input files for the batch-runner witness. -/
def fA : JSFile := { name := "a.jpg", ftype := "image/jpeg", rawBase64 := "A" }

def fB : JSFile := { name := "b.png", ftype := "image/png", rawBase64 := "B" }

def fC : JSFile := { name := "c.mp4", ftype := "video/mp4", rawBase64 := "C" }

/-- Concrete per-file outcomes: the middle file fails. -/
def sampleOuts : List (BatchOutcome × String × String) :=
  [(BatchOutcome.ok (mapResult {} "TR"), "p1", "u1"),
   (BatchOutcome.fail, "p2", "u2"),
   (BatchOutcome.ok (mapResult {} "TR"), "p3", "u3")]

/-- Witness for `batch_runner_spec`: a three-file batch whose middle file
fails. -/
theorem batch_runner_spec_witness :
    sampleOuts.length = (fA :: fB :: [fC]).length ∧
    ((processQueueRun (handleScanStart sampleStateWithHistory (fA :: fB :: [fC])
        (SingleScanOutcome.fail1 "m") "p" "u").1 sampleOuts).2 = fA :: fB :: [fC] ∧
      (processQueueRun (handleScanStart sampleStateWithHistory (fA :: fB :: [fC])
        (SingleScanOutcome.fail1 "m") "p" "u").1 sampleOuts).1.batchProgress =
        (fA :: fB :: [fC]).length ∧
      (processQueueRun (handleScanStart sampleStateWithHistory (fA :: fB :: [fC])
        (SingleScanOutcome.fail1 "m") "p" "u").1 sampleOuts).1.batchResults.length =
        (fA :: fB :: [fC]).length - sampleOuts.countP isFailOut ∧
      (processQueueRun (handleScanStart sampleStateWithHistory (fA :: fB :: [fC])
        (SingleScanOutcome.fail1 "m") "p" "u").1 sampleOuts).1.history.length =
        sampleStateWithHistory.history.length +
          ((fA :: fB :: [fC]).length - sampleOuts.countP isFailOut) ∧
      (processQueueRun (handleScanStart sampleStateWithHistory (fA :: fB :: [fC])
        (SingleScanOutcome.fail1 "m") "p" "u").1 sampleOuts).1.batchQueue = []) :=
  ⟨rfl, batch_runner_spec sampleStateWithHistory fA fB [fC]
    (SingleScanOutcome.fail1 "m") "p" "u" sampleOuts rfl⟩
